import Mathlib

/-
Verification of the slack-tools repository: a shallow embedding of the
Spotify/Slack status updater (display_current_spotify_track.ts, utils/slack.ts)
and the profile-rotation script (animate_profile_pic.ts, utils.ts).

Network I/O is modelled by passing each outbound response explicitly as an
argument; each operation returns its result together with the updated
in-memory store and the list (or count) of network calls it issued, so that
"no network call" and "state left untouched" are provable statements.
-/

namespace SlackTools

/-- JavaScript truthiness of a nullable string: null, undefined and the
empty string are falsy; every other string is truthy. -/
def truthy : Option String → Bool
  | none => false
  | some s => !(s == "")

/-- Rendering of a possibly-undefined string in a JS template literal:
undefined prints as the text undefined. -/
def jsStr : Option String → String
  | none => "undefined"
  | some s => s

/-- One element of the album image-variant list of the Spotify now-playing
response body. -/
structure SpotifyImage where
  url : String
deriving DecidableEq, Repr

/-- One artist object of the now-playing response body. -/
structure Artist where
  name : String
deriving DecidableEq, Repr

/-- The album object of the now-playing response body. -/
structure Album where
  name : String
  images : List SpotifyImage
deriving DecidableEq, Repr

/-- The item object of the now-playing response body. -/
structure Item where
  name : String
  artists : List Artist
  album : Option Album
  external_urls_spotify : Option String
deriving DecidableEq, Repr

/-- The JSON body of an HTTP 200 now-playing response. -/
structure NowPlayingBody where
  is_playing : Bool
  item : Option Item
deriving DecidableEq, Repr

/-- The track state built by getCurrentlyPlaying: every field other than
isPlaying may be absent (undefined in the source). -/
structure TrackInfo where
  isPlaying : Bool
  trackName : Option String
  artistName : Option String
  albumName : Option String
  trackUrl : Option String
  albumArtUrl : Option String
  albumArt : Option (List SpotifyImage)
deriving DecidableEq, Repr

/-- The track state the 204 branch of getCurrentlyPlaying returns: only
isPlaying is set, to false. -/
def notPlayingTrackInfo : TrackInfo :=
  ⟨false, none, none, none, none, none, none⟩

/-- The module-level tokenStorage object of display_current_spotify_track.ts. -/
structure TokenStorage where
  accessToken : Option String
  refreshToken : Option String
  tokenExpiry : Nat
  codeVerifier : Option String
  lastPlayedTrack : Option TrackInfo
deriving DecidableEq, Repr

/-- The parsed JSON body of a successful Spotify token-endpoint response
(code exchange or refresh). -/
structure TokenData where
  access_token : String
  refresh_token : Option String
  expires_in : Nat
deriving DecidableEq, Repr

/-- Outcome of one fetch of the Spotify token endpoint, as the source
distinguishes it: response.ok with a parsed body, response not ok, or a
thrown transport error. -/
inductive RefreshResp where
  | ok (data : TokenData)
  | httpError
  | transportError
deriving DecidableEq, Repr

/-- Result of refreshSpotifyToken: the returned token (null on failure),
the token storage after the call, and how many network calls were made. -/
structure RefreshOutcome where
  result : Option String
  store : TokenStorage
  networkCalls : Nat
deriving DecidableEq, Repr

/-- The refreshSpotifyToken function of display_current_spotify_track.ts.
Fast path: a truthy stored access token with expiry strictly after now is
returned with no network call. Otherwise a falsy refresh token fails with
null and no network call; otherwise the refresh request is issued, and on
response.ok the access token and expiry are stored (and the refresh token,
when the provider returned a truthy one), while on a rejected response or a
transport error null is returned and the storage is not touched. -/
def refreshSpotifyToken (st : TokenStorage) (now : Nat) (resp : RefreshResp) :
    RefreshOutcome :=
  if truthy st.accessToken = true ∧ st.tokenExpiry > now then
    ⟨st.accessToken, st, 0⟩
  else if truthy st.refreshToken = true then
    match resp with
    | .ok data =>
      let st1 : TokenStorage :=
        { st with accessToken := some data.access_token
                  tokenExpiry := now + data.expires_in * 1000 }
      let st2 : TokenStorage :=
        if truthy data.refresh_token = true then
          { st1 with refreshToken := data.refresh_token }
        else st1
      ⟨some data.access_token, st2, 1⟩
    | .httpError => ⟨none, st, 1⟩
    | .transportError => ⟨none, st, 1⟩
  else ⟨none, st, 0⟩

/-- C3: refreshSpotifyToken has exactly these failure modes: with an invalid
stored access token and a falsy refresh token it returns null with zero
network calls and the store untouched; with a refresh token present, a
rejected refresh response or a transport failure returns null after one
network call with every field of the store exactly as before; and any call
that returns null is one of these two cases. -/
theorem refreshSpotifyToken_failure_modes (st : TokenStorage) (now : Nat)
    (resp : RefreshResp) :
    (¬ (truthy st.accessToken = true ∧ st.tokenExpiry > now) →
      truthy st.refreshToken = false →
      refreshSpotifyToken st now resp = ⟨none, st, 0⟩) ∧
    (¬ (truthy st.accessToken = true ∧ st.tokenExpiry > now) →
      truthy st.refreshToken = true →
      (resp = .httpError ∨ resp = .transportError) →
      refreshSpotifyToken st now resp = ⟨none, st, 1⟩) ∧
    ((refreshSpotifyToken st now resp).result = none →
      ¬ (truthy st.accessToken = true ∧ st.tokenExpiry > now) ∧
      (truthy st.refreshToken = false ∨
        resp = .httpError ∨ resp = .transportError)) := by
  refine ⟨?_, ?_, ?_⟩
  · intro h1 h2
    unfold refreshSpotifyToken
    rw [if_neg h1, if_neg (by simp [h2])]
  · intro h1 h2 h3
    unfold refreshSpotifyToken
    rcases h3 with h3 | h3 <;> subst h3 <;> rw [if_neg h1, if_pos h2]
  · intro hres
    by_cases h1 : truthy st.accessToken = true ∧ st.tokenExpiry > now
    · exfalso
      unfold refreshSpotifyToken at hres
      rw [if_pos h1] at hres
      simp only at hres
      rcases h1 with ⟨h1a, _⟩
      cases hacc : st.accessToken with
      | none => rw [hacc] at h1a; simp [truthy] at h1a
      | some s => rw [hacc] at hres; exact Option.noConfusion hres
    · refine ⟨h1, ?_⟩
      by_cases h2 : truthy st.refreshToken = true
      · cases resp with
        | ok data =>
          exfalso
          unfold refreshSpotifyToken at hres
          rw [if_neg h1, if_pos h2] at hres
          exact Option.noConfusion hres
        | httpError => exact Or.inr (Or.inl rfl)
        | transportError => exact Or.inr (Or.inr rfl)
      · exact Or.inl (by simpa using h2)

/-- Witness for C3: on an empty store the call fails with no network call,
and on a store holding only a refresh token a rejected refresh fails after
one network call leaving the store unchanged. -/
theorem refreshSpotifyToken_failure_modes_witness :
    refreshSpotifyToken (TokenStorage.mk none none 0 none none) 0 .httpError =
      ⟨none, TokenStorage.mk none none 0 none none, 0⟩ ∧
    refreshSpotifyToken (TokenStorage.mk none (some "rt") 0 none none) 0
        .httpError =
      ⟨none, TokenStorage.mk none (some "rt") 0 none none, 1⟩ := by
  refine ⟨?_, ?_⟩
  · exact (refreshSpotifyToken_failure_modes
      (TokenStorage.mk none none 0 none none) 0 .httpError).1
      (by decide) (by decide)
  · exact (refreshSpotifyToken_failure_modes
      (TokenStorage.mk none (some "rt") 0 none none) 0 .httpError).2.1
      (by decide) (by decide) (Or.inl rfl)

/-- C5: the fast path of refreshSpotifyToken is idempotent: while the stored
access token is truthy and its expiry is strictly in the future, a call
returns that token with zero network calls and the store unchanged, and an
immediately following second call again makes zero network calls and
returns the same token. -/
theorem refreshSpotifyToken_fastpath_idempotent (st : TokenStorage) (now : Nat)
    (resp resp2 : RefreshResp)
    (h : truthy st.accessToken = true ∧ st.tokenExpiry > now) :
    refreshSpotifyToken st now resp = ⟨st.accessToken, st, 0⟩ ∧
    refreshSpotifyToken (refreshSpotifyToken st now resp).store now resp2 =
      ⟨st.accessToken, st, 0⟩ := by
  have h1 : refreshSpotifyToken st now resp = ⟨st.accessToken, st, 0⟩ := by
    unfold refreshSpotifyToken
    rw [if_pos h]
  refine ⟨h1, ?_⟩
  rw [h1]
  unfold refreshSpotifyToken
  rw [if_pos h]

/-- Witness for C5: with a valid token stored, two successive calls both
return it with zero network calls. -/
theorem refreshSpotifyToken_fastpath_idempotent_witness :
    refreshSpotifyToken (TokenStorage.mk (some "tok") none 1000 none none) 0
        .transportError =
      ⟨some "tok", TokenStorage.mk (some "tok") none 1000 none none, 0⟩ ∧
    refreshSpotifyToken
        (refreshSpotifyToken (TokenStorage.mk (some "tok") none 1000 none none)
          0 .transportError).store 0 .transportError =
      ⟨some "tok", TokenStorage.mk (some "tok") none 1000 none none, 0⟩ :=
  refreshSpotifyToken_fastpath_idempotent
    (TokenStorage.mk (some "tok") none 1000 none none) 0
    .transportError .transportError (by decide)

/-- Outcome of one fetch of the Spotify now-playing endpoint: HTTP 204
with no body, HTTP 200 with a parsed JSON body, a rejected response, or a
thrown transport error. -/
inductive NowPlayingResp where
  | noContent
  | ok (body : NowPlayingBody)
  | httpError
  | transportError
deriving DecidableEq, Repr

/-- The HTTP 200 branch of getCurrentlyPlaying: builds the track state from
the response body, joining artist names with a comma-space delimiter and
taking the album-art URL from the first image variant via optional
chaining. -/
def parseNowPlaying (data : NowPlayingBody) : TrackInfo :=
  { isPlaying := data.is_playing
    trackName := data.item.map Item.name
    artistName := data.item.map fun it =>
      String.intercalate ", " (it.artists.map Artist.name)
    albumName := data.item.bind fun it => it.album.map Album.name
    trackUrl := data.item.bind Item.external_urls_spotify
    albumArtUrl := data.item.bind fun it =>
      it.album.bind fun al => al.images.head?.map SpotifyImage.url
    albumArt := data.item.bind fun it => it.album.map Album.images }

/-- Result of getCurrentlyPlaying: the track state (null on failure), the
token storage after the embedded token refresh, and the network calls made
on the token endpoint and on the now-playing endpoint. -/
structure PollOutcome where
  result : Option TrackInfo
  store : TokenStorage
  tokenCalls : Nat
  nowPlayingCalls : Nat
deriving DecidableEq, Repr

/-- The getCurrentlyPlaying function: obtains a token via
refreshSpotifyToken, returns null without querying the endpoint when the
token is falsy, and otherwise maps HTTP 204 to the not-playing track state,
HTTP 200 through parseNowPlaying, and any other status or a transport
failure to null. -/
def getCurrentlyPlaying (st : TokenStorage) (now : Nat) (rresp : RefreshResp)
    (np : NowPlayingResp) : PollOutcome :=
  let r := refreshSpotifyToken st now rresp
  if truthy r.result = true then
    match np with
    | .noContent => ⟨some notPlayingTrackInfo, r.store, r.networkCalls, 1⟩
    | .ok body => ⟨some (parseNowPlaying body), r.store, r.networkCalls, 1⟩
    | .httpError => ⟨none, r.store, r.networkCalls, 1⟩
    | .transportError => ⟨none, r.store, r.networkCalls, 1⟩
  else ⟨none, r.store, r.networkCalls, 0⟩

/-- C7: when the now-playing endpoint answers HTTP 204, getCurrentlyPlaying
returns exactly the track state with isPlaying false and every other field
absent. -/
theorem getCurrentlyPlaying_204 (st : TokenStorage) (now : Nat)
    (rresp : RefreshResp)
    (ht : truthy (refreshSpotifyToken st now rresp).result = true) :
    (getCurrentlyPlaying st now rresp .noContent).result =
      some (TrackInfo.mk false none none none none none none) := by
  unfold getCurrentlyPlaying
  simp only [ht, if_pos]
  rfl

/-- Witness for C7: with a valid stored token, a 204 answer yields the
not-playing track state with all other fields absent. -/
theorem getCurrentlyPlaying_204_witness :
    (getCurrentlyPlaying (TokenStorage.mk (some "tok") none 1000 none none) 0
        .transportError .noContent).result =
      some (TrackInfo.mk false none none none none none none) :=
  getCurrentlyPlaying_204 (TokenStorage.mk (some "tok") none 1000 none none) 0
    .transportError (by decide)

/-- C8: on an HTTP 200 now-playing response whose body carries an item,
getCurrentlyPlaying returns the parsed track state, whose artist-name field
is the artist names joined by a comma-space delimiter, and whose album-art
URL is the url of the first element of the image-variant list, absent
whenever that list is empty. -/
theorem getCurrentlyPlaying_200_fields (st : TokenStorage) (now : Nat)
    (rresp : RefreshResp) (body : NowPlayingBody) (it : Item) (al : Album)
    (img : SpotifyImage) (rest : List SpotifyImage)
    (ht : truthy (refreshSpotifyToken st now rresp).result = true)
    (hit : body.item = some it) :
    (getCurrentlyPlaying st now rresp (.ok body)).result =
      some (parseNowPlaying body) ∧
    (parseNowPlaying body).artistName =
      some (String.intercalate ", " (it.artists.map Artist.name)) ∧
    (it.album = some al → al.images = img :: rest →
      (parseNowPlaying body).albumArtUrl = some img.url) ∧
    (it.album = some al → al.images = [] →
      (parseNowPlaying body).albumArtUrl = none) := by
  refine ⟨?_, ?_, ?_, ?_⟩
  · unfold getCurrentlyPlaying
    simp only [ht, if_pos]
  · simp [parseNowPlaying, hit]
  · intro h1 h2
    simp [parseNowPlaying, hit, h1, h2]
  · intro h1 h2
    simp [parseNowPlaying, hit, h1, h2]

/-- Concrete album used by the C8 witness. -/
def sampleAlbum : Album := Album.mk "Alb" [SpotifyImage.mk "art.png"]

/-- Concrete now-playing item used by the C8 witness. -/
def sampleItem : Item :=
  Item.mk "Song" [Artist.mk "A", Artist.mk "B"] (some sampleAlbum) (some "u")

/-- Concrete 200 response body used by the C8 witness. -/
def sampleBody : NowPlayingBody := NowPlayingBody.mk true (some sampleItem)

/-- Concrete token storage holding a valid access token, used by witnesses. -/
def validStore : TokenStorage :=
  TokenStorage.mk (some "tok") none 1000 none none

/-- Witness for C8: a concrete 200 body with two artists and one image
variant parses to a track state with the names joined by comma-space and
the album art taken from that first variant. -/
theorem getCurrentlyPlaying_200_fields_witness :
    (getCurrentlyPlaying validStore 0 .transportError (.ok sampleBody)).result =
      some (parseNowPlaying sampleBody) ∧
    (parseNowPlaying sampleBody).artistName =
      some (String.intercalate ", " (sampleItem.artists.map Artist.name)) ∧
    (sampleItem.album = some sampleAlbum →
      sampleAlbum.images = SpotifyImage.mk "art.png" :: [] →
      (parseNowPlaying sampleBody).albumArtUrl =
        some (SpotifyImage.mk "art.png").url) ∧
    (sampleItem.album = some sampleAlbum → sampleAlbum.images = [] →
      (parseNowPlaying sampleBody).albumArtUrl = none) :=
  getCurrentlyPlaying_200_fields validStore 0 .transportError sampleBody
    sampleItem sampleAlbum (SpotifyImage.mk "art.png") []
    (by decide) rfl

/-- One payload posted to the Slack profile-set endpoint: status text and
status emoji (status_expiration is the constant 0 in the source). -/
structure StatusPayload where
  text : String
  emoji : String
deriving DecidableEq, Repr

/-- Result of updateStatus: the boolean outcome and the list of payloads
posted to the Slack profile-set endpoint during the call. -/
structure StatusCallOutcome where
  result : Bool
  calls : List StatusPayload
deriving DecidableEq, Repr

/-- The updateStatus function of display_current_spotify_track.ts: with a
falsy Slack token it returns false without a network call; otherwise it
posts one profile-set payload, with a Playing text and the cat emoji when
the track state is playing with a truthy track name, and empty text and
emoji otherwise. The platformOk argument is the combined outcome of the
Slack call (response body ok, with a transport failure or rejection caught
and mapped to false). -/
def updateStatus (trackInfo : Option TrackInfo) (slackToken : String)
    (platformOk : Bool) : StatusCallOutcome :=
  if slackToken == "" then ⟨false, []⟩
  else
    let playing : Bool :=
      match trackInfo with
      | some t => t.isPlaying && truthy t.trackName
      | none => false
    let payload : StatusPayload :=
      if playing then
        ⟨"Playing: " ++ jsStr (trackInfo.bind TrackInfo.trackName) ++ " by "
            ++ jsStr (trackInfo.bind TrackInfo.artistName),
          ":cat-arm-dance:"⟩
      else ⟨"", ""⟩
    ⟨platformOk, [payload]⟩

/-- Result of one polling-mode scheduler tick (updateSpotifyStatus): the
token storage afterwards and the payloads posted to the Slack profile-set
and photo-set endpoints during the tick. -/
structure TickOutcome where
  store : TokenStorage
  statusCalls : List StatusPayload
  photoCalls : List String
deriving DecidableEq, Repr

/-- The updateSpotifyStatus function, run by setInterval every 15 seconds:
with a falsy refresh token it logs and returns; when getCurrentlyPlaying
returns null it logs and returns; when no track is playing it logs and
returns WITHOUT calling the status publisher; otherwise it updates the
Slack status and, when an album-art URL is present, also the Slack photo,
caching the track as lastPlayedTrack. -/
def updateSpotifyStatus (st : TokenStorage) (now : Nat) (rresp : RefreshResp)
    (np : NowPlayingResp) (slackToken : String) (statusOk : Bool) :
    TickOutcome :=
  if truthy st.refreshToken = false then ⟨st, [], []⟩
  else
    let p := getCurrentlyPlaying st now rresp np
    match p.result with
    | none => ⟨p.store, [], []⟩
    | some ti =>
      if ti.isPlaying = false then ⟨p.store, [], []⟩
      else
        let u := updateStatus (some ti) slackToken statusOk
        if truthy ti.albumArtUrl = true then
          ⟨{ p.store with lastPlayedTrack := some ti }, u.calls,
            [jsStr ti.albumArtUrl]⟩
        else ⟨p.store, u.calls, []⟩

/-- Result of the default route of the handler: the token storage
afterwards, the Slack calls made, and the slackUpdated booleans plus the
currentlyPlaying value of the JSON response. -/
structure DefaultOutcome where
  store : TokenStorage
  statusCalls : List StatusPayload
  photoCalls : List String
  slackStatus : Bool
  slackPhoto : Bool
  currentlyPlaying : TrackInfo
deriving DecidableEq, Repr

/-- The default route of the handler: polls the currently playing track;
when track info is present it updates the Slack status (empty text and
emoji when not playing) and, only when playing with an album-art URL, the
photo; when the poll returns null it updates the status with the bare
not-playing object. The photo result defaults to false when no photo call
is made, and currentlyPlaying falls back to the not-playing object. -/
def defaultRoute (st : TokenStorage) (now : Nat) (rresp : RefreshResp)
    (np : NowPlayingResp) (slackToken : String) (statusOk photoOk : Bool) :
    DefaultOutcome :=
  let p := getCurrentlyPlaying st now rresp np
  match p.result with
  | some ti =>
    let u := updateStatus (some ti) slackToken statusOk
    if ti.isPlaying = true ∧ truthy ti.albumArtUrl = true then
      ⟨{ p.store with lastPlayedTrack := some ti }, u.calls,
        [jsStr ti.albumArtUrl], u.result, photoOk, ti⟩
    else ⟨p.store, u.calls, [], u.result, false, ti⟩
  | none =>
    let u := updateStatus (some notPlayingTrackInfo) slackToken statusOk
    ⟨p.store, u.calls, [], u.result, false, notPlayingTrackInfo⟩

/-- Counterexample for C1: a polling-mode tick with a valid token and an
HTTP 204 now-playing answer makes no status call at all -- in particular it
never posts the empty text and emoji payload the claim requires. -/
theorem updateSpotifyStatus_204_counterexample :
    (updateSpotifyStatus
        (TokenStorage.mk (some "tok") (some "ref") 1000 none none) 0
        .transportError .noContent "xoxp-test" true).statusCalls = [] ∧
    ¬ StatusPayload.mk "" "" ∈ (updateSpotifyStatus
        (TokenStorage.mk (some "tok") (some "ref") 1000 none none) 0
        .transportError .noContent "xoxp-test" true).statusCalls := by
  decide

/-- C1 amended: in polling mode, when the now-playing poll returns HTTP 204,
the scheduler tick (updateSpotifyStatus) exits early and calls neither the
status publisher nor the photo endpoint; it is the default HTTP route that,
on a 204 poll, calls the status publisher with empty text and emoji and no
image, so that on a successful platform response its result is photo false
and status true. -/
theorem tick_204_publishes_nothing_route_publishes_empty (st : TokenStorage)
    (now : Nat) (rresp : RefreshResp) (slackToken : String)
    (statusOk photoOk : Bool)
    (hr : truthy st.refreshToken = true)
    (ht : truthy (refreshSpotifyToken st now rresp).result = true) :
    updateSpotifyStatus st now rresp .noContent slackToken statusOk =
      ⟨(refreshSpotifyToken st now rresp).store, [], []⟩ ∧
    (¬ slackToken = "" → statusOk = true →
      defaultRoute st now rresp .noContent slackToken statusOk photoOk =
        ⟨(refreshSpotifyToken st now rresp).store, [StatusPayload.mk "" ""],
          [], true, false, notPlayingTrackInfo⟩) := by
  constructor
  · unfold updateSpotifyStatus
    rw [if_neg (by simp [hr])]
    unfold getCurrentlyPlaying
    simp only [ht, if_pos]
    simp [notPlayingTrackInfo]
  · intro hs hok
    unfold defaultRoute
    unfold getCurrentlyPlaying
    simp only [ht, if_pos]
    simp [updateStatus, notPlayingTrackInfo, truthy, hs, hok]

/-- Witness for C1 amended: with a stored valid token and refresh token, a
204 tick makes no Slack call while the default route posts one empty
status payload and reports photo false, status true. -/
theorem tick_204_publishes_nothing_route_publishes_empty_witness :
    updateSpotifyStatus
        (TokenStorage.mk (some "tok") (some "ref") 1000 none none) 0
        .transportError .noContent "xoxp-test" true =
      ⟨(refreshSpotifyToken
          (TokenStorage.mk (some "tok") (some "ref") 1000 none none) 0
          .transportError).store, [], []⟩ ∧
    (¬ ("xoxp-test" : String) = "" → (true : Bool) = true →
      defaultRoute (TokenStorage.mk (some "tok") (some "ref") 1000 none none)
          0 .transportError .noContent "xoxp-test" true true =
        ⟨(refreshSpotifyToken
            (TokenStorage.mk (some "tok") (some "ref") 1000 none none) 0
            .transportError).store, [StatusPayload.mk "" ""], [], true, false,
          notPlayingTrackInfo⟩) :=
  tick_204_publishes_nothing_route_publishes_empty
    (TokenStorage.mk (some "tok") (some "ref") 1000 none none) 0
    .transportError "xoxp-test" true true (by decide) (by decide)

/-- Result of the callback route: HTTP status, the success flag of the JSON
body, the token storage afterwards, and how many token-exchange network
calls were made. -/
structure CallbackOutcome where
  status : Nat
  success : Bool
  store : TokenStorage
  exchangeCalls : Nat
deriving DecidableEq, Repr

/-- The callback route of the handler: with a falsy code query parameter it
answers 400; with a falsy pending code verifier it answers 400, both
without a network call. Otherwise it posts the code exchange; a null
result (provider rejection or transport failure, both mapped to null by
exchangeCodeForToken) answers 500 leaving the storage untouched, and a
successful exchange stores access token, refresh token and expiry (now
plus the reported lifetime in milliseconds), clears the code verifier and
answers 200. The exchange outcome is passed as an optional TokenData. -/
def callbackRoute (code : Option String) (st : TokenStorage) (now : Nat)
    (resp : Option TokenData) : CallbackOutcome :=
  if truthy code = false then ⟨400, false, st, 0⟩
  else if truthy st.codeVerifier = false then ⟨400, false, st, 0⟩
  else
    match resp with
    | none => ⟨500, false, st, 1⟩
    | some d =>
      ⟨200, true,
        { st with accessToken := some d.access_token
                  refreshToken := d.refresh_token
                  tokenExpiry := now + d.expires_in * 1000
                  codeVerifier := none }, 1⟩

/-- C4: the callback route fails with 400 and no network call when no
pending verifier is stored; a successful exchange stores the tokens and
sets the pending verifier to null; a rejected or failed exchange answers
500 and leaves the token storage unchanged, the verifier still pending. -/
theorem callbackRoute_verifier_lifecycle (code : Option String)
    (st : TokenStorage) (now : Nat) (resp : Option TokenData) (d : TokenData) :
    (truthy st.codeVerifier = false →
      callbackRoute code st now resp = ⟨400, false, st, 0⟩) ∧
    (truthy code = true → truthy st.codeVerifier = true → resp = some d →
      callbackRoute code st now resp =
        ⟨200, true,
          { st with accessToken := some d.access_token
                    refreshToken := d.refresh_token
                    tokenExpiry := now + d.expires_in * 1000
                    codeVerifier := none }, 1⟩) ∧
    (truthy code = true → truthy st.codeVerifier = true → resp = none →
      callbackRoute code st now resp = ⟨500, false, st, 1⟩) := by
  refine ⟨?_, ?_, ?_⟩
  · intro hv
    unfold callbackRoute
    by_cases hc : truthy code = false
    · rw [if_pos hc]
    · rw [if_neg hc, if_pos hv]
  · intro hc hv hresp
    subst hresp
    unfold callbackRoute
    rw [if_neg (by simp [hc]), if_neg (by simp [hv])]
  · intro hc hv hresp
    subst hresp
    unfold callbackRoute
    rw [if_neg (by simp [hc]), if_neg (by simp [hv])]

/-- Witness for C4: with no pending verifier the route answers 400 without
a network call; with a pending verifier a successful exchange stores the
tokens and clears the verifier; a failed exchange answers 500 unchanged. -/
theorem callbackRoute_verifier_lifecycle_witness :
    callbackRoute (some "code") (TokenStorage.mk none none 0 none none) 0
        (some (TokenData.mk "at" (some "rt") 3600)) =
      ⟨400, false, TokenStorage.mk none none 0 none none, 0⟩ ∧
    callbackRoute (some "code")
        (TokenStorage.mk none none 0 (some "ver") none) 0
        (some (TokenData.mk "at" (some "rt") 3600)) =
      ⟨200, true, TokenStorage.mk (some "at") (some "rt") 3600000 none none,
        1⟩ ∧
    callbackRoute (some "code")
        (TokenStorage.mk none none 0 (some "ver") none) 0 none =
      ⟨500, false, TokenStorage.mk none none 0 (some "ver") none, 1⟩ := by
  refine ⟨?_, ?_, ?_⟩
  · exact (callbackRoute_verifier_lifecycle (some "code")
      (TokenStorage.mk none none 0 none none) 0
      (some (TokenData.mk "at" (some "rt") 3600))
      (TokenData.mk "at" (some "rt") 3600)).1 (by decide)
  · have h := (callbackRoute_verifier_lifecycle (some "code")
      (TokenStorage.mk none none 0 (some "ver") none) 0
      (some (TokenData.mk "at" (some "rt") 3600))
      (TokenData.mk "at" (some "rt") 3600)).2.1 (by decide) (by decide) rfl
    rw [h]
    decide
  · exact (callbackRoute_verifier_lifecycle (some "code")
      (TokenStorage.mk none none 0 (some "ver") none) 0 none
      (TokenData.mk "at" (some "rt") 3600)).2.2 (by decide) (by decide) rfl

/-- C6: after a successful callback exchange that stores a nonempty access
token with a positive reported lifetime, an immediately following
refreshSpotifyToken call returns that freshly issued token through the
fast path, with zero network calls and the storage unchanged. -/
theorem callback_then_getValidAccessToken (code : String) (st : TokenStorage)
    (now : Nat) (d : TokenData) (resp2 : RefreshResp)
    (hc : ¬ code = "") (hv : truthy st.codeVerifier = true)
    (ha : ¬ d.access_token = "") (he : 0 < d.expires_in) :
    refreshSpotifyToken (callbackRoute (some code) st now (some d)).store now
        resp2 =
      ⟨some d.access_token,
        (callbackRoute (some code) st now (some d)).store, 0⟩ := by
  have hcb : callbackRoute (some code) st now (some d) =
      ⟨200, true,
        { st with accessToken := some d.access_token
                  refreshToken := d.refresh_token
                  tokenExpiry := now + d.expires_in * 1000
                  codeVerifier := none }, 1⟩ :=
    (callbackRoute_verifier_lifecycle (some code) st now (some d) d).2.1
      (by simp [truthy, hc]) hv rfl
  rw [hcb]
  unfold refreshSpotifyToken
  rw [if_pos ?_]
  constructor
  · simp [truthy, ha]
  · show now + d.expires_in * 1000 > now
    have : 0 < d.expires_in * 1000 := by positivity
    omega

/-- Witness for C6: a concrete successful exchange immediately followed by
a token request returns the fresh token with zero network calls. -/
theorem callback_then_getValidAccessToken_witness :
    refreshSpotifyToken
        (callbackRoute (some "code")
          (TokenStorage.mk none none 0 (some "ver") none) 0
          (some (TokenData.mk "at" (some "rt") 3600))).store 0
        .transportError =
      ⟨some (TokenData.mk "at" (some "rt") 3600).access_token,
        (callbackRoute (some "code")
          (TokenStorage.mk none none 0 (some "ver") none) 0
          (some (TokenData.mk "at" (some "rt") 3600))).store, 0⟩ :=
  callback_then_getValidAccessToken "code"
    (TokenStorage.mk none none 0 (some "ver") none) 0
    (TokenData.mk "at" (some "rt") 3600) .transportError
    (by decide) (by decide) (by decide) (by decide)

/-- Result of the set-token route: HTTP status, the success flag of the
JSON body, and the token storage afterwards. -/
structure SetTokenOutcome where
  status : Nat
  success : Bool
  store : TokenStorage
deriving DecidableEq, Repr

/-- Parse outcome of the set-token request body: a thrown JSON parse error,
or a parsed body whose refreshToken field may be absent. -/
inductive SetTokenBody where
  | invalid
  | parsed (refreshToken : Option String)
deriving DecidableEq, Repr

/-- The set-token route of the handler: an invalid JSON body answers 400; a
falsy refreshToken field answers 400 leaving the storage untouched; a
truthy refreshToken is first written into the storage and then validated by
calling refreshSpotifyToken, answering 200 on a truthy validated token and
400 otherwise, in both cases keeping whatever storage the refresh call
left behind. -/
def setTokenRoute (body : SetTokenBody) (st : TokenStorage) (now : Nat)
    (resp : RefreshResp) : SetTokenOutcome :=
  match body with
  | .invalid => ⟨400, false, st⟩
  | .parsed rt =>
    if truthy rt = true then
      let st1 : TokenStorage := { st with refreshToken := rt }
      let r := refreshSpotifyToken st1 now resp
      if truthy r.result = true then ⟨200, true, r.store⟩
      else ⟨400, false, r.store⟩
    else ⟨400, false, st⟩

/-- C10: the set-token route writes the supplied refresh token into the
storage before validating it; when the stored access token is not on the
fast path and the validation refresh is rejected or fails in transport,
the route answers 400 with success false while the unvalidated refresh
token remains stored, overwriting any previous refresh token with no
rollback. -/
theorem setTokenRoute_stores_before_validation (rt : String)
    (st : TokenStorage) (now : Nat) (resp : RefreshResp)
    (hrt : ¬ rt = "")
    (hfast : ¬ (truthy st.accessToken = true ∧ st.tokenExpiry > now))
    (hresp : resp = .httpError ∨ resp = .transportError) :
    setTokenRoute (.parsed (some rt)) st now resp =
      ⟨400, false, { st with refreshToken := some rt }⟩ := by
  have href : refreshSpotifyToken { st with refreshToken := some rt } now
      resp = ⟨none, { st with refreshToken := some rt }, 1⟩ :=
    (refreshSpotifyToken_failure_modes { st with refreshToken := some rt }
      now resp).2.1 (by simpa using hfast) (by simp [truthy, hrt]) hresp
  simp only [setTokenRoute]
  rw [if_pos (by simp [truthy, hrt])]
  simp only [href]
  simp [truthy]

/-- Witness for C10: setting a fresh token over an old one while the
validation refresh is rejected answers 400 with the new, unvalidated token
still stored in place of the old one. -/
theorem setTokenRoute_stores_before_validation_witness :
    setTokenRoute (.parsed (some "newrt"))
        (TokenStorage.mk none (some "oldrt") 0 none none) 0 .httpError =
      ⟨400, false, TokenStorage.mk none (some "newrt") 0 none none⟩ := by
  have h := setTokenRoute_stores_before_validation "newrt"
    (TokenStorage.mk none (some "oldrt") 0 none none) 0 .httpError
    (by decide) (by decide) (Or.inl rfl)
  rw [h]

/-- The do-while loop of getRandomIndex. The stream draws gives the
successive values of Math.floor(Math.random() * array.length); the loop
draws, and redraws while the draw equals lastIndex and the length exceeds
one. Returns the chosen index together with the number of draws taken, or
none when the fuel is exhausted before the loop exits. -/
def getRandomIndexAux (draws : Nat → Nat) (len : Nat) (lastIndex : Int) :
    Nat → Nat → Option (Nat × Nat)
  | _, 0 => none
  | k, fuel + 1 =>
    if ((draws k : Int) = lastIndex ∧ 1 < len) then
      getRandomIndexAux draws len lastIndex (k + 1) fuel
    else some (draws k, k + 1)

/-- The getRandomIndex function of utils/helper.ts: draws a random index
into the array, redrawing while it equals the previous index and the array
has more than one element. The assignment to the lastIndex parameter in
the source is local to the call, so the caller sees only the returned
index. -/
def getRandomIndex (draws : Nat → Nat) (array : List String)
    (lastIndex : Int) (fuel : Nat) : Option (Nat × Nat) :=
  getRandomIndexAux draws array.length lastIndex 0 fuel

/-- Any index the loop returns is one of the drawn values, and it can equal
lastIndex only when the array does not have more than one element. -/
theorem getRandomIndexAux_sound (draws : Nat → Nat) (len : Nat)
    (lastIndex : Int) :
    ∀ fuel k i c, getRandomIndexAux draws len lastIndex k fuel = some (i, c) →
      (∃ j, i = draws j) ∧ ((i : Int) = lastIndex → ¬ 1 < len) := by
  intro fuel
  induction fuel with
  | zero => intro k i c h; exact Option.noConfusion h
  | succ fuel ih =>
    intro k i c h
    unfold getRandomIndexAux at h
    by_cases hc : ((draws k : Int) = lastIndex ∧ 1 < len)
    · rw [if_pos hc] at h
      exact ih (k + 1) i c h
    · rw [if_neg hc] at h
      have hi : i = draws k := (congrArg Prod.fst (Option.some.inj h)).symm
      refine ⟨⟨k, hi⟩, ?_⟩
      intro heq hlen
      exact hc ⟨hi ▸ heq, hlen⟩

/-- C2: whenever every draw is a valid index, any index getRandomIndex
returns for an array of length greater than one lies in the interval from
0 to the length and differs from the previous index; and for an array of
length exactly one, a single draw suffices: the call returns index 0 after
exactly one draw, never entering the redraw loop. -/
theorem getRandomIndex_spec (draws : Nat → Nat) (array : List String)
    (lastIndex : Int) (fuel i c : Nat)
    (hd : ∀ j, draws j < array.length) :
    (1 < array.length →
      getRandomIndex draws array lastIndex fuel = some (i, c) →
      i < array.length ∧ ¬ (i : Int) = lastIndex) ∧
    (array.length = 1 →
      getRandomIndex draws array lastIndex (fuel + 1) = some (draws 0, 1) ∧
        draws 0 = 0) := by
  constructor
  · intro hlen h
    have hs := getRandomIndexAux_sound draws array.length lastIndex fuel 0
      i c h
    rcases hs with ⟨⟨j, hj⟩, hne⟩
    exact ⟨hj ▸ hd j, fun heq => hne heq hlen⟩
  · intro hlen
    have h0 : draws 0 = 0 := by
      have := hd 0
      omega
    refine ⟨?_, h0⟩
    unfold getRandomIndex getRandomIndexAux
    rw [if_neg (by simp [hlen])]

/-- Witness for C2: with draws all equal to 1 over a two-element array and
previous index 0, the selector returns index 1, inside bounds and distinct
from the previous index; with the constant-zero draw over a one-element
array it returns index 0 after one draw. -/
theorem getRandomIndex_spec_witness :
    ((1 : Nat) < (["a", "b"] : List String).length ∧
      (1 : Nat) < (["a", "b"] : List String).length ∧
        ¬ ((1 : Nat) : Int) = (0 : Int)) ∧
    ((["a"] : List String).length = 1 ∧
      getRandomIndex (fun _ => 0) ["a"] (-1) 3 = some ((fun (_ : Nat) => 0) 0, 1) ∧
        (fun (_ : Nat) => 0) 0 = 0) := by
  constructor
  · refine ⟨by decide, ?_⟩
    exact (getRandomIndex_spec (fun _ => 1) ["a", "b"] 0 3 1 1
      (fun _ => by show (1 : Nat) < 2; decide)).1 (by decide) (by decide)
  · refine ⟨by decide, ?_⟩
    exact (getRandomIndex_spec (fun _ => 0) ["a"] (-1) 2 0 1
      (fun _ => by show (0 : Nat) < 1; decide)).2 (by decide)

/-- The rotation-mode data store of animate_profile_pic.ts: the image list,
the status list, the status cursor and the last image index (initialized
to -1). -/
structure RotationState where
  images : List String
  statuses : List StatusPayload
  currentStatusIndex : Nat
  lastImageIndex : Int
deriving DecidableEq, Repr

/-- Result of one cycleProfile call: the rotation state afterwards and the
payloads posted to the photo-set and profile-set endpoints. -/
structure CycleOutcome where
  state : RotationState
  photoCalls : List String
  statusCalls : List StatusPayload
deriving DecidableEq, Repr

/-- The cycleProfile function of animate_profile_pic.ts: with an empty
image list or an empty status list it only logs a warning, making no
selection and no Slack call and leaving the state unchanged; otherwise it
selects a random image index avoiding the last one, posts the photo and the
status at the cursor concurrently, and advances the cursor by one modulo
the status-list length. The module-level lastImageIndex is never written
back, since the assignment inside the selector is local to the callee.
Returns none when the selector loop does not exit within its fuel. -/
def cycleProfile (st : RotationState) (draws : Nat → Nat) (fuel : Nat) :
    Option CycleOutcome :=
  if st.images.length = 0 ∨ st.statuses.length = 0 then
    some ⟨st, [], []⟩
  else
    match getRandomIndex draws st.images st.lastImageIndex fuel with
    | none => none
    | some (idx, _) =>
      some ⟨{ st with currentStatusIndex :=
                (st.currentStatusIndex + 1) % st.statuses.length },
        [st.images.getD idx ""],
        [st.statuses.getD st.currentStatusIndex ⟨"", ""⟩]⟩

/-- C9: a cycle attempt over an empty image list or an empty status list is
a no-op: the state, including the status cursor, is unchanged and no
selection or publish call is made, even with zero selector fuel; and every
completed cycle over non-empty lists advances the status cursor by exactly
one modulo the status-list length, so the cursor lands in the interval
from 0 to the length. -/
theorem cycleProfile_cursor_invariant (st : RotationState)
    (draws : Nat → Nat) (fuel : Nat) (o : CycleOutcome) :
    (st.images.length = 0 ∨ st.statuses.length = 0 →
      cycleProfile st draws fuel = some ⟨st, [], []⟩) ∧
    (¬ st.images.length = 0 → ¬ st.statuses.length = 0 →
      cycleProfile st draws fuel = some o →
      o.state.currentStatusIndex =
          (st.currentStatusIndex + 1) % st.statuses.length ∧
        o.state.currentStatusIndex < st.statuses.length) := by
  constructor
  · intro h
    unfold cycleProfile
    rw [if_pos h]
  · intro h1 h2 h
    unfold cycleProfile at h
    rw [if_neg (by tauto)] at h
    rcases hsel : getRandomIndex draws st.images st.lastImageIndex fuel with
      _ | ⟨idx, c⟩
    · rw [hsel] at h
      exact Option.noConfusion h
    · rw [hsel] at h
      have ho := Option.some.inj h
      have hcur : o.state.currentStatusIndex =
          (st.currentStatusIndex + 1) % st.statuses.length := by
        rw [← ho]
      refine ⟨hcur, ?_⟩
      rw [hcur]
      exact Nat.mod_lt _ (Nat.pos_of_ne_zero h2)

/-- Witness for C9: a cycle over one image and one status advances the
cursor from 0 back to 0 modulo 1, in bounds; and a cycle over empty lists
is a no-op. -/
theorem cycleProfile_cursor_invariant_witness :
    cycleProfile (RotationState.mk [] [] 0 (-1)) (fun _ => 0) 0 =
      some ⟨RotationState.mk [] [] 0 (-1), [], []⟩ ∧
    ((RotationState.mk ["a.png", "b.png"] [StatusPayload.mk "X" ":x:"] 0
        (-1)).images.length = 0 ∨
      (RotationState.mk ["a.png", "b.png"] [StatusPayload.mk "X" ":x:"] 0
        (-1)).statuses.length = 0 → False) ∧
    ((CycleOutcome.mk (RotationState.mk ["a.png", "b.png"]
          [StatusPayload.mk "X" ":x:"] 0 (-1)) ["b.png"]
          [StatusPayload.mk "X" ":x:"]).state.currentStatusIndex =
        (0 + 1) % 1 ∧
      (CycleOutcome.mk (RotationState.mk ["a.png", "b.png"]
          [StatusPayload.mk "X" ":x:"] 0 (-1)) ["b.png"]
          [StatusPayload.mk "X" ":x:"]).state.currentStatusIndex < 1) := by
  refine ⟨?_, by decide, ?_⟩
  · exact (cycleProfile_cursor_invariant (RotationState.mk [] [] 0 (-1))
      (fun _ => 0) 0 (CycleOutcome.mk (RotationState.mk [] [] 0 (-1)) []
        [])).1 (Or.inl rfl)
  · exact (cycleProfile_cursor_invariant
      (RotationState.mk ["a.png", "b.png"] [StatusPayload.mk "X" ":x:"] 0
        (-1)) (fun _ => 1) 3
      (CycleOutcome.mk (RotationState.mk ["a.png", "b.png"]
        [StatusPayload.mk "X" ":x:"] 0 (-1)) ["b.png"]
        [StatusPayload.mk "X" ":x:"])).2 (by decide) (by decide) (by decide)

end SlackTools
